import Mathlib

/-!
Verification of the `mibig_taxa` Python binding (`src/lib.rs`): the taxon
entry record, the lineage classifier `get_taxon_from_entry`, the three
`PyTaxonCache` query operations with their deprecated-id fallback, the
entry conversions, the error-to-`PyErr` mapping, and the save/load
round-trip of the underlying cache.

Integers are modelled as `Int` (Rust `i64`; no arithmetic is performed on
them, so no overflow reduction is needed), Rust `HashMap`s as association
lists queried with `List.lookup`, and fallible operations as `Except`.
-/

/-- The error enum `PyMibigTaxonError` of `src/lib.rs`.  `MibigError` wraps
an error from the external `mibig_taxa` crate, modelled by its display
string. -/
inductive PyMibigTaxonError where
  | MibigError (e : String)
  | NotFound (id : Int)
  | InvalidAntismashTaxon (tax : String)
deriving DecidableEq

/-- The `Display` implementation for `PyMibigTaxonError`. -/
def PyMibigTaxonError.display : PyMibigTaxonError → String
  | .MibigError e => e
  | .NotFound id => "ID " ++ toString id ++ " not found"
  | .InvalidAntismashTaxon tax =>
      "Can't map taxon " ++ tax ++ " to an antiSMASH taxon"

/-- The lineage record `NcbiTaxEntry` of the `mibig_taxa` crate, with the
ten fields used by `src/lib.rs`. -/
structure NcbiTaxEntry where
  tax_id : Int
  name : String
  species : String
  genus : String
  family : String
  order : String
  «class» : String
  phylum : String
  kingdom : String
  superkingdom : String
deriving DecidableEq

/-- The record `PyTaxonEntry` of `src/lib.rs` (Python-facing copy of
`NcbiTaxEntry`, same ten fields). -/
structure PyTaxonEntry where
  tax_id : Int
  name : String
  species : String
  genus : String
  family : String
  order : String
  «class» : String
  phylum : String
  kingdom : String
  superkingdom : String
deriving DecidableEq

/-- `impl From<&NcbiTaxEntry> for PyTaxonEntry` in `src/lib.rs`: copies all
ten fields. -/
def PyTaxonEntry.fromNcbi (entry : NcbiTaxEntry) : PyTaxonEntry :=
  { tax_id := entry.tax_id
    name := entry.name
    species := entry.species
    genus := entry.genus
    family := entry.family
    order := entry.order
    «class» := entry.«class»
    phylum := entry.phylum
    kingdom := entry.kingdom
    superkingdom := entry.superkingdom }

/-- `impl From<&PyTaxonEntry> for NcbiTaxEntry` in `src/lib.rs`: copies all
ten fields. -/
def NcbiTaxEntry.fromPy (entry : PyTaxonEntry) : NcbiTaxEntry :=
  { tax_id := entry.tax_id
    name := entry.name
    species := entry.species
    genus := entry.genus
    family := entry.family
    order := entry.order
    «class» := entry.«class»
    phylum := entry.phylum
    kingdom := entry.kingdom
    superkingdom := entry.superkingdom }

/-- The classifier `get_taxon_from_entry` of `src/lib.rs`: maps a lineage
to the antiSMASH bucket label, evaluated exactly as the Rust `match`
(top-down, first matching arm wins). -/
def get_taxon_from_entry (entry : NcbiTaxEntry) :
    Except PyMibigTaxonError String :=
  if entry.superkingdom = "Archaea" ∨ entry.superkingdom = "Bacteria" then
    .ok "bacteria"
  else if entry.superkingdom = "Eukaryota" then
    if entry.kingdom = "Fungi" then
      .ok "fungi"
    else if entry.kingdom = "Viridiplantae" then
      .ok "plants"
    else if entry.kingdom = "Unknown" then
      if entry.phylum = "Rhodophyta" ∨ entry.phylum = "Bacillariophyta" then
        .ok "plants"
      else if entry.phylum = "Unknown" then
        if entry.«class» = "Dinophyceae" then
          .ok "plants"
        else
          .error (.InvalidAntismashTaxon entry.«class»)
      else
        .error (.InvalidAntismashTaxon entry.phylum)
    else
      .error (.InvalidAntismashTaxon entry.kingdom)
  else
    -- Many metagenomes are superkingdom "Unknown" but still bacterial
    .ok "bacteria"

/-- `PyTaxonEntry::get_antismash_taxon` of `src/lib.rs`: converts `self`
to an `NcbiTaxEntry` and applies the classifier. -/
def PyTaxonEntry.get_antismash_taxon (self : PyTaxonEntry) :
    Except PyMibigTaxonError String :=
  get_taxon_from_entry (NcbiTaxEntry.fromPy self)

/-- The `TaxonCache` of the `mibig_taxa` crate as used by `src/lib.rs`:
two hash maps, modelled as association lists with unique keys queried via
`List.lookup`. -/
structure TaxonCache where
  mappings : List (Int × NcbiTaxEntry)
  deprecated_ids : List (Int × Int)
deriving DecidableEq

/-- The `PyTaxonCache` wrapper of `src/lib.rs`, holding a `TaxonCache`. -/
structure PyTaxonCache where
  cache : TaxonCache
deriving DecidableEq

/-- `PyTaxonCache::get` of `src/lib.rs`: direct lookup in `mappings`,
else (when `allow_deprecated`) one hop through `deprecated_ids`, else
`NotFound`; on success the entry is converted to a `PyTaxonEntry`. -/
def PyTaxonCache.get (self : PyTaxonCache) (tax_id : Int)
    (allow_deprecated : Bool) : Except PyMibigTaxonError PyTaxonEntry :=
  match self.cache.mappings.lookup tax_id with
  | some entry => .ok (PyTaxonEntry.fromNcbi entry)
  | none =>
    if !allow_deprecated then
      .error (.NotFound tax_id)
    else
      match self.cache.deprecated_ids.lookup tax_id with
      | some new_id =>
        match self.cache.mappings.lookup new_id with
        | some entry => .ok (PyTaxonEntry.fromNcbi entry)
        | none => .error (.NotFound tax_id)
      | none => .error (.NotFound tax_id)

/-- `PyTaxonCache::get_name_by_id` of `src/lib.rs`: same resolution steps
as `get`, returning the resolved entry's `name`. -/
def PyTaxonCache.get_name_by_id (self : PyTaxonCache) (tax_id : Int)
    (allow_deprecated : Bool) : Except PyMibigTaxonError String :=
  match self.cache.mappings.lookup tax_id with
  | some entry => .ok entry.name
  | none =>
    if !allow_deprecated then
      .error (.NotFound tax_id)
    else
      match self.cache.deprecated_ids.lookup tax_id with
      | some new_id =>
        match self.cache.mappings.lookup new_id with
        | some entry => .ok entry.name
        | none => .error (.NotFound tax_id)
      | none => .error (.NotFound tax_id)

/-- `PyTaxonCache::get_antismash_taxon` of `src/lib.rs`: same resolution
steps as `get`, applying the classifier to the resolved entry. -/
def PyTaxonCache.get_antismash_taxon (self : PyTaxonCache) (tax_id : Int)
    (allow_deprecated : Bool) : Except PyMibigTaxonError String :=
  match self.cache.mappings.lookup tax_id with
  | some entry => get_taxon_from_entry entry
  | none =>
    if !allow_deprecated then
      .error (.NotFound tax_id)
    else
      match self.cache.deprecated_ids.lookup tax_id with
      | some new_id =>
        match self.cache.mappings.lookup new_id with
        | some entry => get_taxon_from_entry entry
        | none => .error (.NotFound tax_id)
      | none => .error (.NotFound tax_id)

/-- The spec's four-step lookup resolution policy (§4.1), stated on the
raw cache: used only to compare the three query operations against the
spec's wording. -/
def resolve_policy (c : TaxonCache) (tax_id : Int)
    (allow_deprecated : Bool) : Except PyMibigTaxonError NcbiTaxEntry :=
  match c.mappings.lookup tax_id with
  | some entry => .ok entry
  | none =>
    if allow_deprecated = false then
      .error (.NotFound tax_id)
    else
      match c.deprecated_ids.lookup tax_id with
      | some new_id =>
        match c.mappings.lookup new_id with
        | some entry => .ok entry
        | none => .error (.NotFound tax_id)
      | none => .error (.NotFound tax_id)

/-- The two Python error categories produced at the binding boundary in
`src/lib.rs` (`PyOSError` and `PyValueError`). -/
inductive PyErrKind where
  | osError
  | valueError
deriving DecidableEq

/-- A raised Python error: its category and its message. -/
structure PyErr where
  kind : PyErrKind
  msg : String
deriving DecidableEq

/-- `impl From<PyMibigTaxonError> for PyErr` in `src/lib.rs`:
`MibigError` becomes a `PyOSError`, `NotFound` and
`InvalidAntismashTaxon` become `PyValueError`, each carrying the error's
display string. -/
def pyErr_from (err : PyMibigTaxonError) : PyErr :=
  match err with
  | .MibigError _ => ⟨.osError, err.display⟩
  | .NotFound _ => ⟨.valueError, err.display⟩
  | .InvalidAntismashTaxon _ => ⟨.valueError, err.display⟩

/-- Modelled from the spec: the serialized cache file written by
`save_path` and read by `load_path` (§4.1, §6).  Those two functions live
in the external `mibig_taxa` crate and are absent from `src/`; the spec
leaves the encoding an implementation freedom bound by the round-trip law
of §8, so the file is modelled as a structured record of both maps. -/
structure CacheFile where
  entries : List (Int × NcbiTaxEntry)
  deprecated : List (Int × Int)
deriving DecidableEq

/-- Modelled from the spec: `TaxonCache::save_path` (§4.1) — serializes
`mappings` and `deprecated_ids` and returns the number of entries
written (`mappings.len()`). -/
def TaxonCache.save_path (c : TaxonCache) : CacheFile × Nat :=
  (⟨c.mappings, c.deprecated_ids⟩, c.mappings.length)

/-- Modelled from the spec: `TaxonCache::load_path` (§4.1) — replaces the
cache contents with the deserialized file and returns the number of
entries loaded (`mappings.len()`). -/
def TaxonCache.load_path (f : CacheFile) : TaxonCache × Nat :=
  (⟨f.entries, f.deprecated⟩, f.entries.length)

/-- The decision table of spec §4.2, transcribed as written (top-down,
first matching branch wins): used only to compare the classifier against
the spec's wording. -/
def classify_spec (entry : NcbiTaxEntry) : Except PyMibigTaxonError String :=
  match entry.superkingdom with
  | "Archaea" | "Bacteria" => .ok "bacteria"
  | "Eukaryota" =>
    match entry.kingdom with
    | "Fungi" => .ok "fungi"
    | "Viridiplantae" => .ok "plants"
    | "Unknown" =>
      match entry.phylum with
      | "Rhodophyta" | "Bacillariophyta" => .ok "plants"
      | "Unknown" =>
        match entry.«class» with
        | "Dinophyceae" => .ok "plants"
        | _ => .error (.InvalidAntismashTaxon entry.«class»)
      | _ => .error (.InvalidAntismashTaxon entry.phylum)
    | _ => .error (.InvalidAntismashTaxon entry.kingdom)
  | _ => .ok "bacteria"

/-- A lineage with every rank `"Unknown"`, the base for concrete test
entries. -/
def unknownEntry : NcbiTaxEntry :=
  { tax_id := 0
    name := "unknown"
    species := "Unknown"
    genus := "Unknown"
    family := "Unknown"
    order := "Unknown"
    «class» := "Unknown"
    phylum := "Unknown"
    kingdom := "Unknown"
    superkingdom := "Unknown" }

/-- C1: `get_taxon_from_entry` computes exactly the §4.2 decision table
(top-down, first match wins), and on every entry it either returns one of
the three bucket labels or fails with `InvalidAntismashTaxon` carrying the
offending rank value (the entry's kingdom, phylum or class). -/
theorem get_taxon_from_entry_follows_table (e : NcbiTaxEntry) :
    get_taxon_from_entry e = classify_spec e ∧
    ((∃ b, get_taxon_from_entry e = .ok b ∧
        (b = "bacteria" ∨ b = "fungi" ∨ b = "plants")) ∨
     (∃ v, get_taxon_from_entry e = .error (.InvalidAntismashTaxon v) ∧
        (v = e.kingdom ∨ v = e.phylum ∨ v = e.«class»))) := by
  constructor
  · unfold get_taxon_from_entry classify_spec
    repeat' (first | rfl | (split <;> try simp_all))
  · unfold get_taxon_from_entry
    split_ifs <;> simp

/-- C2: the three query operations all implement the spec's four-step
lookup resolution policy, differing only in the projection applied to the
resolved entry: `get` converts it, `get_name_by_id` takes its name, and
`get_antismash_taxon` applies the classifier. -/
theorem query_ops_follow_lookup_policy (self : PyTaxonCache) (tax_id : Int)
    (allow_deprecated : Bool) :
    self.get tax_id allow_deprecated =
      (resolve_policy self.cache tax_id allow_deprecated).map
        PyTaxonEntry.fromNcbi ∧
    self.get_name_by_id tax_id allow_deprecated =
      (resolve_policy self.cache tax_id allow_deprecated).map
        NcbiTaxEntry.name ∧
    self.get_antismash_taxon tax_id allow_deprecated =
      (resolve_policy self.cache tax_id allow_deprecated).bind
        get_taxon_from_entry := by
  unfold PyTaxonCache.get PyTaxonCache.get_name_by_id
    PyTaxonCache.get_antismash_taxon resolve_policy
  refine ⟨?_, ?_, ?_⟩
  all_goals
    cases h1 : self.cache.mappings.lookup tax_id with
    | some entry => simp [Except.map, Except.bind]
    | none =>
      cases allow_deprecated with
      | false => simp [Except.map, Except.bind]
      | true =>
        simp only [Bool.not_true, Bool.false_eq_true, reduceIte]
        cases h2 : self.cache.deprecated_ids.lookup tax_id with
        | none => simp [Except.map, Except.bind]
        | some new_id =>
          cases h3 : self.cache.mappings.lookup new_id <;>
            simp [h3, Except.map, Except.bind]

/-- Both entry conversions copy all ten fields, so they cancel. -/
theorem NcbiTaxEntry.fromPy_fromNcbi (entry : NcbiTaxEntry) :
    NcbiTaxEntry.fromPy (PyTaxonEntry.fromNcbi entry) = entry := rfl

/-- Both entry conversions copy all ten fields, so they cancel. -/
theorem PyTaxonEntry.fromNcbi_fromPy (entry : PyTaxonEntry) :
    PyTaxonEntry.fromNcbi (NcbiTaxEntry.fromPy entry) = entry := rfl

/-- A cache in which the deprecated id 1 is simultaneously a live key of
`mappings`, violating the §3 invariant. -/
def liveDeprecatedCache : PyTaxonCache :=
  ⟨⟨[(1, { unknownEntry with tax_id := 1, name := "old" }),
     (2, { unknownEntry with tax_id := 2, name := "new" })],
    [(1, 2)]⟩⟩

/-- C3 (counterexample): over raw cache states the claim fails — in a
cache where the deprecated id 1 is also a live key of `mappings`,
`(1, 2)` is in `deprecated_ids` and 2 is a key of `mappings`, yet
`get 1 true` returns the live entry of 1, not the entry of 2. -/
theorem deprecated_resolution_fails_on_live_key :
    liveDeprecatedCache.cache.deprecated_ids.lookup 1 = some 2 ∧
    (∃ e, liveDeprecatedCache.cache.mappings.lookup 2 = some e) ∧
    liveDeprecatedCache.get 1 true ≠ liveDeprecatedCache.get 2 false := by
  refine ⟨rfl, ⟨_, rfl⟩, fun h => ?_⟩
  rw [show liveDeprecatedCache.get 1 true = Except.ok
        (PyTaxonEntry.fromNcbi
          { unknownEntry with tax_id := 1, name := "old" }) from rfl,
      show liveDeprecatedCache.get 2 false = Except.ok
        (PyTaxonEntry.fromNcbi
          { unknownEntry with tax_id := 2, name := "new" }) from rfl] at h
  simp [PyTaxonEntry.fromNcbi, unknownEntry] at h

/-- C3 (amended): for every cache state satisfying the §3 invariant that
the deprecated id is not simultaneously a live key of `mappings`, a pair
`(old_id, new_id)` of `deprecated_ids` with `new_id` a key of `mappings`
gives `get old_id true = get new_id false`. -/
theorem deprecated_resolution (self : PyTaxonCache) (old_id new_id : Int)
    (hlive : self.cache.mappings.lookup old_id = none)
    (hdep : self.cache.deprecated_ids.lookup old_id = some new_id)
    (hnew : ∃ e, self.cache.mappings.lookup new_id = some e) :
    self.get old_id true = self.get new_id false := by
  obtain ⟨e, he⟩ := hnew
  unfold PyTaxonCache.get
  simp [hlive, hdep, he]

/-- A two-entry cache satisfying the §3 invariant: id 2 is live, id 1 is
deprecated in favour of 2. -/
def deprecatedOnlyCache : PyTaxonCache :=
  ⟨⟨[(2, { unknownEntry with tax_id := 2, name := "new" })], [(1, 2)]⟩⟩

/-- Witness for the amended C3 at a concrete invariant-respecting cache. -/
theorem deprecated_resolution_witness :
    deprecatedOnlyCache.get 1 true = deprecatedOnlyCache.get 2 false :=
  deprecated_resolution deprecatedOnlyCache 1 2 rfl rfl ⟨_, rfl⟩

/-- C4: when the requested id is not a key of `mappings`, every strict
(`allow_deprecated = false`) lookup fails with `NotFound` of that id, even
if the id is a key of `deprecated_ids`. -/
theorem strict_lookup_not_found (self : PyTaxonCache) (tax_id : Int)
    (h : self.cache.mappings.lookup tax_id = none) :
    self.get tax_id false = .error (.NotFound tax_id) ∧
    self.get_name_by_id tax_id false = .error (.NotFound tax_id) ∧
    self.get_antismash_taxon tax_id false = .error (.NotFound tax_id) := by
  unfold PyTaxonCache.get PyTaxonCache.get_name_by_id
    PyTaxonCache.get_antismash_taxon
  refine ⟨?_, ?_, ?_⟩ <;> simp [h]

/-- Witness for C4 at a cache whose only knowledge of id 1 is a
deprecation link. -/
theorem strict_lookup_not_found_witness :
    deprecatedOnlyCache.get 1 false = .error (.NotFound 1) ∧
    deprecatedOnlyCache.get_name_by_id 1 false = .error (.NotFound 1) ∧
    deprecatedOnlyCache.get_antismash_taxon 1 false =
      .error (.NotFound 1) :=
  strict_lookup_not_found deprecatedOnlyCache 1 rfl

/-- C5: `get_antismash_taxon` is exactly the classifier composed with the
resolution performed by `get`: on the entry `get` resolves it returns the
classifier's result (so an `InvalidAntismashTaxon` failure propagates
as-is), and when `get` fails the very same error is returned. -/
theorem get_antismash_taxon_is_classifier_of_get (self : PyTaxonCache)
    (tax_id : Int) (allow_deprecated : Bool) :
    self.get_antismash_taxon tax_id allow_deprecated =
      (self.get tax_id allow_deprecated).bind
        (fun pe => get_taxon_from_entry (NcbiTaxEntry.fromPy pe)) := by
  unfold PyTaxonCache.get PyTaxonCache.get_antismash_taxon
  cases h1 : self.cache.mappings.lookup tax_id with
  | some entry => simp [Except.bind, NcbiTaxEntry.fromPy_fromNcbi]
  | none =>
    cases allow_deprecated with
    | false => simp [Except.bind]
    | true =>
      simp only [Bool.not_true, Bool.false_eq_true, reduceIte]
      cases h2 : self.cache.deprecated_ids.lookup tax_id with
      | none => simp [Except.bind]
      | some new_id =>
        cases h3 : self.cache.mappings.lookup new_id <;>
          simp [h3, Except.bind, NcbiTaxEntry.fromPy_fromNcbi]

/-- C6: a Eukaryota lineage with unknown kingdom and phylum and class
`"Insecta"` is rejected with `InvalidAntismashTaxon` carrying the class
value. -/
theorem classifier_rejects_insecta (e : NcbiTaxEntry)
    (hs : e.superkingdom = "Eukaryota") (hk : e.kingdom = "Unknown")
    (hp : e.phylum = "Unknown") (hc : e.«class» = "Insecta") :
    get_taxon_from_entry e = .error (.InvalidAntismashTaxon "Insecta") := by
  unfold get_taxon_from_entry
  simp [hs, hk, hp, hc]

/-- Witness for C6 at a concrete insect entry. -/
theorem classifier_rejects_insecta_witness :
    get_taxon_from_entry
        { unknownEntry with
            superkingdom := "Eukaryota", «class» := "Insecta" } =
      .error (.InvalidAntismashTaxon "Insecta") :=
  classifier_rejects_insecta _ rfl rfl rfl rfl

/-- C7: any superkingdom other than `"Archaea"`, `"Bacteria"` and
`"Eukaryota"` (for instance the sentinel `"Unknown"`) falls through to
the `bacteria` bucket regardless of the remaining ranks. -/
theorem unknown_superkingdom_defaults_bacteria (e : NcbiTaxEntry)
    (h1 : e.superkingdom ≠ "Archaea") (h2 : e.superkingdom ≠ "Bacteria")
    (h3 : e.superkingdom ≠ "Eukaryota") :
    get_taxon_from_entry e = .ok "bacteria" := by
  unfold get_taxon_from_entry
  simp [h1, h2, h3]

/-- Witness for C7 at a fully unknown (metagenome-style) entry. -/
theorem unknown_superkingdom_defaults_bacteria_witness :
    get_taxon_from_entry unknownEntry = .ok "bacteria" :=
  unknown_superkingdom_defaults_bacteria unknownEntry
    (by decide) (by decide) (by decide)

/-- C8: saving a cache and loading the file into a fresh cache restores
`mappings` and `deprecated_ids` exactly, and each call returns the number
of entries in `mappings`. -/
theorem save_load_roundtrip (c : TaxonCache) :
    (TaxonCache.load_path (TaxonCache.save_path c).1).1.mappings =
      c.mappings ∧
    (TaxonCache.load_path (TaxonCache.save_path c).1).1.deprecated_ids =
      c.deprecated_ids ∧
    (TaxonCache.save_path c).2 = c.mappings.length ∧
    (TaxonCache.load_path (TaxonCache.save_path c).1).2 =
      c.mappings.length :=
  ⟨rfl, rfl, rfl, rfl⟩

/-- C9: at the binding boundary `MibigError` maps to the I/O-style
`PyOSError` category, `NotFound` and `InvalidAntismashTaxon` map to the
validation-style `PyValueError` category, and every conversion carries the
error's full display message (nothing is recovered or downgraded). -/
theorem error_conversion_categories :
    (∀ s, (pyErr_from (.MibigError s)).kind = .osError) ∧
    (∀ id, (pyErr_from (.NotFound id)).kind = .valueError) ∧
    (∀ tax, (pyErr_from (.InvalidAntismashTaxon tax)).kind =
      .valueError) ∧
    (∀ err : PyMibigTaxonError, (pyErr_from err).msg = err.display) :=
  ⟨fun _ => rfl, fun _ => rfl, fun _ => rfl,
   fun err => by cases err <;> rfl⟩

/-- C10: the two entry conversions are mutually inverse (all ten fields
are copied), and `PyTaxonEntry.get_antismash_taxon` on a converted entry
agrees with the classifier on the original entry. -/
theorem entry_conversions_inverse :
    (∀ n : NcbiTaxEntry, NcbiTaxEntry.fromPy (PyTaxonEntry.fromNcbi n) = n) ∧
    (∀ p : PyTaxonEntry, PyTaxonEntry.fromNcbi (NcbiTaxEntry.fromPy p) = p) ∧
    (∀ n : NcbiTaxEntry,
      PyTaxonEntry.get_antismash_taxon (PyTaxonEntry.fromNcbi n) =
        get_taxon_from_entry n) ∧
    (∀ p : PyTaxonEntry,
      p.get_antismash_taxon =
        get_taxon_from_entry (NcbiTaxEntry.fromPy p)) :=
  ⟨fun _ => rfl, fun _ => rfl, fun _ => rfl, fun _ => rfl⟩
